import Mathlib

/-!
Verification of the Yellowstone Club weather-station fetch pipeline
(`fetch_data.py`): the table extractor embedded in `page.evaluate`,
the two fetch wrappers, `merge_station_data`, and the main station loop.
-/

namespace YCWeather

/-! ## String helpers (JS `textContent.trim()` and `String.includes`) -/

/-- A whitespace character, as stripped by `trim`. -/
def isWS (c : Char) : Bool :=
  c == ' ' || c == '\t' || c == '\n' || c == '\r'

/-- Trim whitespace from both ends of a character list. -/
def trimL (s : List Char) : List Char :=
  ((s.dropWhile isWS).reverse.dropWhile isWS).reverse

/-- JS `s.trim()`. -/
def trimS (s : String) : String := ⟨trimL s.data⟩

/-- Does character list `s` start with `pat`? -/
def startsWithL : List Char → List Char → Bool
  | _, [] => true
  | [], _ :: _ => false
  | a :: as, b :: bs => a == b && startsWithL as bs

/-- Does character list `s` contain `pat` as a contiguous sublist? -/
def containsL (pat : List Char) : List Char → Bool
  | [] => startsWithL [] pat
  | c :: rest => startsWithL (c :: rest) pat || containsL pat rest

/-- JS `s.includes(pat)`. -/
def strContains (s pat : String) : Bool := containsL pat.data s.data

/-! ## DOM model

A rendered page is modelled as the list of its `<table>` elements in
document order; a table is its list of `<tr>` rows; a row is its list of
cells, each a `<th>` or `<td>` with a text content. -/

inductive CellTag where
  | th
  | td
deriving DecidableEq

structure Cell where
  tag : CellTag
  text : String
deriving DecidableEq

abbrev DomRow := List Cell
abbrev DomTable := List DomRow
abbrev Dom := List DomTable

/-- The `{headers, rows}` result of the in-page extraction script. -/
structure TableResult where
  headers : List String
  rows : List (List String)
deriving DecidableEq

/-! ## Table extractor (the JS passed to `page.evaluate`)

The script scans tables in document order, skips tables with no rows or
no header cells, and takes the first one whose first row has a cell whose
trimmed text contains one of the keywords (`Date`/`Time` for weather.gov,
`Date`/`Hour`/`Wind` for mtavalanche). -/

/-- `headerText.some(h => h.includes(k1) || ...)` for keyword list `kws`. -/
def headerMatch (kws : List String) (hs : List String) : Bool :=
  hs.any (fun h => kws.any (fun k => strContains h k))

/-- Trimmed text content of a cell. -/
def cellText (c : Cell) : String := trimS c.text

/-- Does this table pass the header heuristic: nonempty row list, nonempty
header-cell list, and a trimmed header text containing a keyword? -/
def isMatchTable (kws : List String) : DomTable → Bool
  | [] => false
  | r0 :: _ => !r0.isEmpty && headerMatch kws (r0.map cellText)

/-- The trimmed texts of the first row's cells (the headers taken on match). -/
def headerTexts (t : DomTable) : List String :=
  (t.headD []).map cellText

/-- `row.querySelectorAll('td')` mapped to trimmed texts; `none` when the
row has zero `<td>` cells (such rows are skipped). -/
def tdTexts (r : DomRow) : Option (List String) :=
  let tds := r.filter (fun c => c.tag == CellTag.td)
  if tds.isEmpty then none else some (tds.map cellText)

/-- The data rows collected from a matching table: every row after the
first, skipping rows with zero `<td>` cells. -/
def dataRows (t : DomTable) : List (List String) :=
  match t with
  | [] => []
  | _ :: rest => rest.filterMap tdTexts

/-- The extraction loop: first matching table wins, `{headers:[],rows:[]}`
when none matches. -/
def extractTables (kws : List String) : Dom → TableResult
  | [] => ⟨[], []⟩
  | t :: ts =>
    if isMatchTable kws t then ⟨headerTexts t, dataRows t⟩
    else extractTables kws ts

/-- The weather.gov extractor (`fetch_station_data`): keywords Date, Time. -/
def extractWG : Dom → TableResult := extractTables ["Date", "Time"]

/-- The mtavalanche extractor (`fetch_mtavalanche_data`): keywords Date,
Hour, Wind. -/
def extractMA : Dom → TableResult := extractTables ["Date", "Hour", "Wind"]

/-! ## Station records

The Python records are dicts; optional keys become `Option` fields.
`data` is optional because the error record built in `fetch_station_data`
has no `data` key. -/

structure StationRecord where
  station_id : String
  station_name : String
  timestamp : String
  url : String
  data : Option TableResult
  error : Option String
  source : Option String
  sources : Option (List String)
  mtavalanche_url : Option String
deriving DecidableEq

/-- A Python exception surfaced by a dict access. -/
inductive PyErr where
  | keyError
deriving DecidableEq

/-- The compiled-in station registry, in insertion order. -/
def STATIONS : List (String × String) :=
  [("YCTIM", "Timberline"),
   ("YCAND", "Andesite"),
   ("YCAMS", "American Spirit"),
   ("YCBAS", "Base"),
   ("YCGBR", "Great Bear")]

/-- The compiled-in secondary-source URL table, in insertion order. -/
def MTAVALANCHE_URLS : List (String × String) :=
  [("YCTIM", "https://www.mtavalanche.com/weather/yellowstoneclub/timber"),
   ("YCAND", "https://www.mtavalanche.com/weather/yellowstoneclub/andesite"),
   ("YCAMS", "https://www.mtavalanche.com/weather/stations/american-spirit-station"),
   ("YCBAS", "https://www.mtavalanche.com/weather/stations/yellowstone-club-base"),
   ("YCGBR", "https://www.mtavalanche.com/weather/stations/great-bear")]

/-- Lookback window (hours of data requested). -/
def HOURS : Nat := 168

/-- `STATIONS.get(site_id, site_id)`. -/
def stationNameOf (sid : String) : String :=
  (STATIONS.lookup sid).getD sid

/-- The weather.gov timeseries URL built in `fetch_station_data`. -/
def wgUrl (sid : String) : String :=
  "https://www.weather.gov/wrh/timeseries?site=" ++ sid ++ "&hours=" ++
    toString HOURS ++
    "&units=english&chart=on&headers=on&obs=tabular&hourly=false&pview=full&font=12&plot="

/-! ## Fetch wrappers

Navigation and rendering are external; a fetch attempt is modelled by an
oracle outcome: either the rendered DOM, or the message of the exception
the attempt raised. -/

/-- `fetch_station_data`: on success, a record holding the extracted
table; on any exception, an error record with no `data` field. -/
def fetch_station_data (sid : String) (outcome : Except String Dom)
    (ts : String) : StationRecord :=
  match outcome with
  | .ok dom =>
      { station_id := sid, station_name := stationNameOf sid,
        timestamp := ts, data := some (extractWG dom), url := wgUrl sid,
        error := none, source := none, sources := none,
        mtavalanche_url := none }
  | .error e =>
      { station_id := sid, station_name := stationNameOf sid,
        timestamp := ts, data := none, url := wgUrl sid,
        error := some e, source := none, sources := none,
        mtavalanche_url := none }

/-- `fetch_mtavalanche_data`: `none` when the URL table has no entry for
the station or when the fetch raises; otherwise a record holding the
extracted table. -/
def fetch_mtavalanche_data (sid : String) (outcome : Except String Dom)
    (ts : String) : Option StationRecord :=
  match MTAVALANCHE_URLS.lookup sid with
  | none => none
  | some url =>
      match outcome with
      | .error _ => none
      | .ok dom =>
          some { station_id := sid, station_name := stationNameOf sid,
                 timestamp := ts, data := some (extractMA dom), url := url,
                 error := none, source := some "mtavalanche",
                 sources := none, mtavalanche_url := none }

/-! ## Merge -/

/-- `merge_station_data(weather_gov_data, mtavalanche_data)`. The dict
accesses `weather_gov_data['data']` / `mtavalanche_data['data']` raise
`KeyError` when the key is absent; that possibility is made explicit in
the `Except` result. -/
def merge_station_data (w : StationRecord) (s : Option StationRecord) :
    Except PyErr StationRecord :=
  match s with
  | none => .ok w
  | some sec =>
    if w.error.isSome then .ok w
    else
      match w.data with
      | none => .error .keyError
      | some wd =>
        if wd.rows.isEmpty then .ok w
        else
          match sec.data with
          | none => .error .keyError
          | some sd =>
            if sd.rows.isEmpty then .ok w
            else
              .ok { w with
                data := some ⟨wd.headers, sd.rows ++ wd.rows⟩,
                sources := some ["mtavalanche", "weather.gov"],
                mtavalanche_url := some sec.url }

/-! ## Main loop

One iteration fetches both sources, merges, stores the record in the
aggregate dict, and writes the individual file `<sid>.json`. The run
aborts on an uncaught exception (modelled by the `Except`). -/

/-- One loop body: both fetches followed by the merge. -/
def processStation (oW oM : String → Except String Dom) (ts sid : String) :
    Except PyErr StationRecord :=
  merge_station_data (fetch_station_data sid (oW sid) ts)
    (fetch_mtavalanche_data sid (oM sid) ts)

/-- The station loop over a registry fragment, returning the individual
files written (name, content) and the aggregate dict entries. -/
def runLoop (oW oM : String → Except String Dom) (ts : String) :
    List (String × String) →
    Except PyErr (List (String × StationRecord) × List (String × StationRecord))
  | [] => .ok ([], [])
  | (sid, _) :: rest =>
    match processStation oW oM ts sid with
    | .error e => .error e
    | .ok r =>
      match runLoop oW oM ts rest with
      | .error e => .error e
      | .ok (files, agg) =>
          .ok ((sid ++ ".json", r) :: files, (sid, r) :: agg)

/-- The whole run: the loop over the full registry. -/
def runMain (oW oM : String → Except String Dom) (ts : String) :
    Except PyErr (List (String × StationRecord) × List (String × StationRecord)) :=
  runLoop oW oM ts STATIONS

/-! ## Helper lemmas -/

lemma merge_error_left (w : StationRecord) (s : Option StationRecord)
    (h : w.error.isSome = true) : merge_station_data w s = .ok w := by
  cases s with
  | none => rfl
  | some sec => simp [merge_station_data, h]

lemma merge_total (w : StationRecord) (s : Option StationRecord)
    (hw : w.error.isSome = true ∨ w.data.isSome = true)
    (hs : ∀ x, s = some x → x.data.isSome = true) :
    ∃ r, merge_station_data w s = .ok r := by
  cases s with
  | none => exact ⟨w, rfl⟩
  | some sec =>
    by_cases he : w.error.isSome
    · exact ⟨w, merge_error_left w (some sec) he⟩
    · have hd : w.data.isSome = true := by
        rcases hw with hw | hw
        · exact absurd hw he
        · exact hw
      obtain ⟨wd, hwd⟩ := Option.isSome_iff_exists.mp hd
      obtain ⟨sd, hsd⟩ := Option.isSome_iff_exists.mp (hs sec rfl)
      simp only [merge_station_data, he, hwd, hsd, if_false]
      by_cases h1 : wd.rows.isEmpty
      · exact ⟨w, by simp [h1]⟩
      · by_cases h2 : sd.rows.isEmpty
        · exact ⟨w, by simp [h1, h2]⟩
        · refine ⟨{ w with
            data := some ⟨wd.headers, sd.rows ++ wd.rows⟩,
            sources := some ["mtavalanche", "weather.gov"],
            mtavalanche_url := some sec.url }, ?_⟩
          simp [h1, h2]

lemma mt_data_some (sid : String) (o : Except String Dom) (ts : String)
    (x : StationRecord) (h : fetch_mtavalanche_data sid o ts = some x) :
    x.data.isSome = true := by
  unfold fetch_mtavalanche_data at h
  cases hl : MTAVALANCHE_URLS.lookup sid with
  | none => rw [hl] at h; exact absurd h (by simp)
  | some url =>
    rw [hl] at h
    cases o with
    | error e => exact absurd h (by simp)
    | ok dom =>
      simp only [Option.some.injEq] at h
      rw [← h]
      rfl

lemma fetch_wg_wf (sid : String) (o : Except String Dom) (ts : String) :
    (fetch_station_data sid o ts).error.isSome = true ∨
      (fetch_station_data sid o ts).data.isSome = true := by
  cases o with
  | ok dom => exact Or.inr rfl
  | error e => exact Or.inl rfl

lemma processStation_ok (oW oM : String → Except String Dom) (ts sid : String) :
    ∃ r, processStation oW oM ts sid = .ok r :=
  merge_total _ _ (fetch_wg_wf sid (oW sid) ts)
    (fun x hx => mt_data_some sid (oM sid) ts x hx)

lemma runLoop_spec (oW oM : String → Except String Dom) (ts : String) :
    ∀ sts : List (String × String),
    ∃ files agg, runLoop oW oM ts sts = .ok (files, agg) ∧
      agg.map Prod.fst = sts.map Prod.fst ∧
      files = agg.map (fun p => (p.1 ++ ".json", p.2)) ∧
      ∀ sid r, (sid, r) ∈ agg → processStation oW oM ts sid = .ok r := by
  intro sts
  induction sts with
  | nil => exact ⟨[], [], rfl, rfl, rfl, by simp⟩
  | cons p rest ih =>
    obtain ⟨files, agg, hrun, hkeys, hfiles, hmem⟩ := ih
    obtain ⟨r, hr⟩ := processStation_ok oW oM ts p.1
    refine ⟨(p.1 ++ ".json", r) :: files, (p.1, r) :: agg, ?_, ?_, ?_, ?_⟩
    · show runLoop oW oM ts ((p.1, p.2) :: rest) = _
      simp only [runLoop, hr, hrun]
    · simp [hkeys]
    · simp [hfiles]
    · intro sid r' hmem'
      rcases List.mem_cons.mp hmem' with h | h
      · obtain ⟨h1, h2⟩ := Prod.mk.injEq .. ▸ h
        subst h1; subst h2; exact hr
      · exact hmem sid r' h

lemma extract_append_nomatch (kws : List String) (pre rest : Dom)
    (h : ∀ t ∈ pre, isMatchTable kws t = false) :
    extractTables kws (pre ++ rest) = extractTables kws rest := by
  induction pre with
  | nil => rfl
  | cons t ts ih =>
    have ht := h t (List.mem_cons_self t ts)
    show extractTables kws (t :: (ts ++ rest)) = _
    rw [extractTables, ht]
    simp only [Bool.false_eq_true, if_false]
    exact ih (fun t' ht' => h t' (List.mem_cons_of_mem _ ht'))

lemma extract_cons_match (kws : List String) (t : DomTable) (ts : Dom)
    (h : isMatchTable kws t = true) :
    extractTables kws (t :: ts) = ⟨headerTexts t, dataRows t⟩ := by
  rw [extractTables, if_pos h]

/-! ## Claims -/

/-- Claim C1: when the primary record has no error and both row lists are
non-empty, `merge_station_data` returns a record whose headers are the
primary's, whose rows are the secondary's rows before the primary's,
whose `sources` is `["mtavalanche", "weather.gov"]`, and whose
`mtavalanche_url` is the secondary's URL. -/
theorem merge_concat_order (w sec : StationRecord) (wd sd : TableResult)
    (hwe : w.error = none) (hwd : w.data = some wd) (hwr : wd.rows ≠ [])
    (hsd : sec.data = some sd) (hsr : sd.rows ≠ []) :
    ∃ r, merge_station_data w (some sec) = .ok r ∧
      r.data = some ⟨wd.headers, sd.rows ++ wd.rows⟩ ∧
      r.sources = some ["mtavalanche", "weather.gov"] ∧
      r.mtavalanche_url = some sec.url := by
  have h1 : wd.rows.isEmpty = false := by simp [List.isEmpty_iff, hwr]
  have h2 : sd.rows.isEmpty = false := by simp [List.isEmpty_iff, hsr]
  refine ⟨{ w with
    data := some ⟨wd.headers, sd.rows ++ wd.rows⟩,
    sources := some ["mtavalanche", "weather.gov"],
    mtavalanche_url := some sec.url }, ?_, rfl, rfl, rfl⟩
  simp [merge_station_data, hwe, hwd, hsd, h1, h2]

/-- Claim C3: `merge_station_data` returns the primary unchanged in every
fallback case: primary carries an error, secondary absent, primary rows
empty, secondary rows empty (the last assuming the primary is a record
shape the fetches can produce, i.e. it has an error or a data field). -/
theorem merge_fallbacks (w : StationRecord) :
    (∀ s, w.error.isSome = true → merge_station_data w s = .ok w) ∧
    merge_station_data w none = .ok w ∧
    (∀ s wd, w.data = some wd → wd.rows = [] →
      merge_station_data w s = .ok w) ∧
    (∀ sec sd, (w.error.isSome = true ∨ w.data.isSome = true) →
      sec.data = some sd → sd.rows = [] →
      merge_station_data w (some sec) = .ok w) := by
  refine ⟨fun s h => merge_error_left w s h, rfl, ?_, ?_⟩
  · intro s wd hwd hrows
    cases s with
    | none => rfl
    | some sec =>
      by_cases he : w.error.isSome
      · exact merge_error_left w _ he
      · simp [merge_station_data, he, hwd, hrows]
  · intro sec sd hw hsd hrows
    by_cases he : w.error.isSome
    · exact merge_error_left w _ he
    · have hd : w.data.isSome = true := hw.resolve_left he
      obtain ⟨wd, hwd⟩ := Option.isSome_iff_exists.mp hd
      by_cases h1 : wd.rows.isEmpty
      · simp [merge_station_data, he, hwd, h1]
      · simp [merge_station_data, he, hwd, h1, hsd, hrows]

/-- Claim C4: `merge_station_data` never raises: for every primary
record of a shape the fetches can produce (an error or a data field) and
every optional secondary with a data field, it returns a result rather
than signalling a failure. -/
theorem merge_never_raises (w : StationRecord) (s : Option StationRecord)
    (hw : w.error.isSome = true ∨ w.data.isSome = true)
    (hs : ∀ x, s = some x → x.data.isSome = true) :
    ∃ r, merge_station_data w s = .ok r :=
  merge_total w s hw hs

/-- Claim C9: whenever an actual merge happens, every field of the result
other than `data`, `sources` and `mtavalanche_url` equals the primary's
corresponding field. -/
theorem merge_frame (w sec : StationRecord) (wd sd : TableResult)
    (hwe : w.error = none) (hwd : w.data = some wd) (hwr : wd.rows ≠ [])
    (hsd : sec.data = some sd) (hsr : sd.rows ≠ []) :
    ∃ r, merge_station_data w (some sec) = .ok r ∧
      r.station_id = w.station_id ∧ r.station_name = w.station_name ∧
      r.timestamp = w.timestamp ∧ r.url = w.url ∧
      r.error = w.error ∧ r.source = w.source := by
  have h1 : wd.rows.isEmpty = false := by simp [List.isEmpty_iff, hwr]
  have h2 : sd.rows.isEmpty = false := by simp [List.isEmpty_iff, hsr]
  refine ⟨{ w with
    data := some ⟨wd.headers, sd.rows ++ wd.rows⟩,
    sources := some ["mtavalanche", "weather.gov"],
    mtavalanche_url := some sec.url }, ?_, rfl, rfl, rfl, rfl, rfl, rfl⟩
  simp [merge_station_data, hwe, hwd, hsd, h1, h2]

/-- Claim C2 (counterexample): a fixture whose first table's header
matches "Time" and whose second table's header contains "Date" makes the
extractor return the first table's headers, not the Date-table's trimmed
cell texts. -/
theorem extract_date_claim_cex :
    strContains (cellText (Cell.mk CellTag.th "Date")) "Date" = true ∧
    extractWG [[[Cell.mk CellTag.th "Time"]], [[Cell.mk CellTag.th "Date"]]] =
      ⟨["Time"], []⟩ ∧
    (⟨["Time"], []⟩ : TableResult).headers ≠
      ([Cell.mk CellTag.th "Date"].map cellText) := by
  decide

/-- Claim C2 (amended): for every fixture containing a table whose header
row has a cell whose trimmed text contains "Date", provided no earlier
table matches the extractor's keyword test, the extractor returns that
header row's trimmed cell texts as headers. -/
theorem extract_date_headers (pre : Dom) (r0 : DomRow) (rest : DomTable)
    (post : Dom) (c : Cell) (hc : c ∈ r0)
    (hdate : strContains (cellText c) "Date" = true)
    (hpre : ∀ t ∈ pre, isMatchTable ["Date", "Time"] t = false) :
    (extractWG (pre ++ (r0 :: rest) :: post)).headers = r0.map cellText := by
  have hne : r0.isEmpty = false := by
    cases r0 with
    | nil => cases hc
    | cons a l => rfl
  have hm : headerMatch ["Date", "Time"] (r0.map cellText) = true := by
    simp only [headerMatch, List.any_eq_true]
    exact ⟨cellText c, List.mem_map_of_mem _ hc, by simp [hdate]⟩
  have hmt : isMatchTable ["Date", "Time"] (r0 :: rest) = true := by
    simp [isMatchTable, hne, hm]
  show (extractTables ["Date", "Time"] (pre ++ (r0 :: rest) :: post)).headers = _
  rw [extract_append_nomatch _ pre _ hpre, extract_cons_match _ _ _ hmt]
  rfl

/-- Claim C5: the extractor stops at the first matching table, returns
its headers and its td-rows (rows with zero td cells skipped), and tables
after the first match are never consulted (the result is the same with
any suffix). -/
theorem extract_first_match (pre : Dom) (t : DomTable) (post : Dom)
    (hpre : ∀ t' ∈ pre, isMatchTable ["Date", "Time"] t' = false)
    (ht : isMatchTable ["Date", "Time"] t = true) :
    extractWG (pre ++ t :: post) = ⟨headerTexts t, dataRows t⟩ ∧
    extractWG (pre ++ t :: post) = extractWG (pre ++ [t]) := by
  have h1 : extractWG (pre ++ t :: post) = ⟨headerTexts t, dataRows t⟩ := by
    show extractTables ["Date", "Time"] _ = _
    rw [extract_append_nomatch _ pre _ hpre, extract_cons_match _ _ _ ht]
  have h2 : extractWG (pre ++ [t]) = ⟨headerTexts t, dataRows t⟩ := by
    show extractTables ["Date", "Time"] _ = _
    rw [extract_append_nomatch _ pre _ hpre, extract_cons_match _ _ _ ht]
  exact ⟨h1, h1.trans h2.symm⟩

/-- Claim C6: when no table matches the keyword heuristic (including a
fixture with zero tables), the extractor returns `{headers: [], rows: []}`
and never signals an error. -/
theorem extract_no_match (d : Dom)
    (h : ∀ t ∈ d, isMatchTable ["Date", "Time"] t = false) :
    extractWG d = ⟨[], []⟩ := by
  show extractTables ["Date", "Time"] d = ⟨[], []⟩
  have h2 := extract_append_nomatch ["Date", "Time"] d [] h
  rw [List.append_nil] at h2
  exact h2.trans rfl

/-- Claim C7: when a station's primary fetch raises, the resulting record
has its error field set and no data field, and the loop still processes
every registry station. -/
theorem station_error_isolated (oW oM : String → Except String Dom)
    (ts sid e : String)
    (hsid : sid ∈ STATIONS.map Prod.fst) (he : oW sid = .error e) :
    (fetch_station_data sid (oW sid) ts).error = some e ∧
    (fetch_station_data sid (oW sid) ts).data = none ∧
    ∃ files agg, runMain oW oM ts = .ok (files, agg) ∧
      agg.map Prod.fst = STATIONS.map Prod.fst ∧
      ∃ r, (sid, r) ∈ agg ∧ r.error = some e ∧ r.data = none := by
  obtain ⟨files, agg, hrun, hkeys, hfiles, hmem⟩ := runLoop_spec oW oM ts STATIONS
  have hsagg : sid ∈ agg.map Prod.fst := by rw [hkeys]; exact hsid
  obtain ⟨p, hp, hp1⟩ := List.mem_map.mp hsagg
  have hpmem : (sid, p.2) ∈ agg := by rw [← hp1]; simpa using hp
  have hps : processStation oW oM ts sid =
      .ok (fetch_station_data sid (oW sid) ts) :=
    merge_error_left _ _ (by rw [he]; rfl)
  have hp2 : p.2 = fetch_station_data sid (oW sid) ts :=
    Except.ok.inj ((hmem sid p.2 hpmem).symm.trans hps)
  refine ⟨by rw [he]; rfl, by rw [he]; rfl, files, agg, hrun, hkeys,
    p.2, hpmem, ?_, ?_⟩
  · rw [hp2, he]; rfl
  · rw [hp2, he]; rfl

/-- Claim C8: after a full run, the aggregate's key list is exactly the
registry's station identifiers, and each aggregate value is the record
written to that station's individual file. -/
theorem aggregate_matches_files (oW oM : String → Except String Dom)
    (ts : String) :
    ∃ files agg, runMain oW oM ts = .ok (files, agg) ∧
      agg.map Prod.fst = STATIONS.map Prod.fst ∧
      ∀ sid r, (sid, r) ∈ agg → (sid ++ ".json", r) ∈ files := by
  obtain ⟨files, agg, hrun, hkeys, hfiles, _⟩ := runLoop_spec oW oM ts STATIONS
  refine ⟨files, agg, hrun, hkeys, ?_⟩
  intro sid r hmem
  rw [hfiles]
  exact List.mem_map_of_mem _ hmem

/-- Claim C10: the secondary-URL table and the station registry have the
same keys, so every registry station has a secondary URL and
`fetch_mtavalanche_data` never takes its missing-URL branch. -/
theorem urls_cover_stations :
    MTAVALANCHE_URLS.map Prod.fst = STATIONS.map Prod.fst ∧
    ∀ sid, sid ∈ STATIONS.map Prod.fst →
      (MTAVALANCHE_URLS.lookup sid).isSome = true ∧
      ∀ dom ts, (fetch_mtavalanche_data sid (.ok dom) ts).isSome = true := by
  refine ⟨rfl, ?_⟩
  intro sid hsid
  fin_cases hsid <;> exact ⟨rfl, fun dom ts => rfl⟩

/-! ## Concrete instances used by the witnesses -/

def wdEx : TableResult := ⟨["Date", "Temp"], [["2024-01-01", "20F"]]⟩

def sdEx : TableResult := ⟨["Hour", "Wind"], [["00:00", "5mph"]]⟩

def wEx : StationRecord :=
  ⟨"YCTIM", "Timberline", "t0", "u0", some wdEx, none, none, none, none⟩

def secEx : StationRecord :=
  ⟨"YCTIM", "Timberline", "t0", "mu0", some sdEx, none,
    some "mtavalanche", none, none⟩

def secEmptyEx : StationRecord :=
  ⟨"YCTIM", "Timberline", "t0", "mu0", some ⟨["Hour", "Wind"], []⟩, none,
    some "mtavalanche", none, none⟩

def tEx : DomTable :=
  [[Cell.mk CellTag.th "Date"], [Cell.mk CellTag.td "1"],
   [Cell.mk CellTag.th "skip"]]

def postEx : Dom := [[[Cell.mk CellTag.th "Later"]]]

/-- Witness for C1 at the concrete records of the spec's scenario. -/
theorem merge_concat_order_witness :
    wEx.error = none ∧
    ∃ r, merge_station_data wEx (some secEx) = .ok r ∧
      r.data = some ⟨wdEx.headers, sdEx.rows ++ wdEx.rows⟩ ∧
      r.sources = some ["mtavalanche", "weather.gov"] ∧
      r.mtavalanche_url = some secEx.url :=
  ⟨rfl, merge_concat_order wEx secEx wdEx sdEx rfl rfl (by decide) rfl
    (by decide)⟩

/-- Witness for C2 (amended) on a one-table fixture. -/
theorem extract_date_headers_witness :
    (extractWG ([] ++ ([Cell.mk CellTag.th "Date"] :: []) :: [])).headers =
      [Cell.mk CellTag.th "Date"].map cellText :=
  extract_date_headers [] [Cell.mk CellTag.th "Date"] [] []
    (Cell.mk CellTag.th "Date") (by decide) (by decide) (by simp)

/-- Witness for C3 exercising the empty-secondary-rows fallback. -/
theorem merge_fallbacks_witness :
    secEmptyEx.data = some ⟨["Hour", "Wind"], []⟩ ∧
    merge_station_data wEx (some secEmptyEx) = .ok wEx :=
  ⟨rfl, (merge_fallbacks wEx).2.2.2 secEmptyEx ⟨["Hour", "Wind"], []⟩
    (Or.inr rfl) rfl rfl⟩

/-- Witness for C4 at concrete records. -/
theorem merge_never_raises_witness :
    ∃ r, merge_station_data wEx (some secEx) = .ok r :=
  merge_never_raises wEx (some secEx) (Or.inr rfl)
    (fun x hx => by cases hx; rfl)

/-- Witness for C5 on a fixture with a trailing table. -/
theorem extract_first_match_witness :
    extractWG ([] ++ tEx :: postEx) = ⟨headerTexts tEx, dataRows tEx⟩ ∧
    extractWG ([] ++ tEx :: postEx) = extractWG ([] ++ [tEx]) :=
  extract_first_match [] tEx postEx (by simp) (by decide)

/-- Witness for C6 on a fixture whose one table does not match. -/
theorem extract_no_match_witness :
    extractWG [[[Cell.mk CellTag.td "x"]]] = ⟨[], []⟩ :=
  extract_no_match [[[Cell.mk CellTag.td "x"]]] (by decide)

/-- Witness for C7 with a primary oracle that always times out. -/
theorem station_error_isolated_witness :
    (fetch_station_data "YCTIM" (Except.error "timeout") "t0").error =
      some "timeout" ∧
    (fetch_station_data "YCTIM" (Except.error "timeout") "t0").data = none ∧
    ∃ files agg,
      runMain (fun _ => Except.error "timeout") (fun _ => Except.ok [])
        "t0" = .ok (files, agg) ∧
      agg.map Prod.fst = STATIONS.map Prod.fst ∧
      ∃ r, ("YCTIM", r) ∈ agg ∧ r.error = some "timeout" ∧ r.data = none :=
  station_error_isolated (fun _ => Except.error "timeout")
    (fun _ => Except.ok []) "t0" "YCTIM" "timeout" (by decide) rfl

/-- Witness for C8 at concrete oracles. -/
theorem aggregate_matches_files_witness :
    ∃ files agg,
      runMain (fun _ => Except.ok []) (fun _ => Except.ok []) "t0" =
        .ok (files, agg) ∧
      agg.map Prod.fst = STATIONS.map Prod.fst ∧
      ∀ sid r, (sid, r) ∈ agg → (sid ++ ".json", r) ∈ files :=
  aggregate_matches_files (fun _ => Except.ok []) (fun _ => Except.ok []) "t0"

/-- Witness for C9 at concrete records. -/
theorem merge_frame_witness :
    ∃ r, merge_station_data wEx (some secEx) = .ok r ∧
      r.station_id = wEx.station_id ∧ r.station_name = wEx.station_name ∧
      r.timestamp = wEx.timestamp ∧ r.url = wEx.url ∧
      r.error = wEx.error ∧ r.source = wEx.source :=
  merge_frame wEx secEx wdEx sdEx rfl rfl (by decide) rfl (by decide)

/-- Witness for C10 at station YCTIM. -/
theorem urls_cover_stations_witness :
    ("YCTIM" ∈ STATIONS.map Prod.fst) ∧
    (MTAVALANCHE_URLS.lookup "YCTIM").isSome = true ∧
    (fetch_mtavalanche_data "YCTIM" (Except.ok []) "t0").isSome = true := by
  have h := urls_cover_stations.2 "YCTIM" (by decide)
  exact ⟨by decide, h.1, h.2 [] "t0"⟩

end YCWeather
